import Mathlib

/-!
Shallow embedding of the data-collection core of
`manual_control_record_e2c_diff_init.py` (game_loop and its helpers).

Python floats are modelled as exact rationals; the CARLA world and road
graph are modelled as an explicit `RoadGraph` collaborator; the global
random stream (`random.random()` and `random.choice`) is modelled as
explicit input streams (`g : Nat → Rat` for unit draws, `c : Nat → Nat`
for choice indices), consumed sequentially.  Fallible Python code
(`raise`) is embedded as `Except String`.
-/

/-- carla.Location: a 3D point. -/
structure Location where
  x : ℚ
  y : ℚ
  z : ℚ
deriving DecidableEq

/-- carla.Rotation: pitch/yaw/roll in degrees. -/
structure Rotation where
  pitch : ℚ
  yaw : ℚ
  roll : ℚ
deriving DecidableEq

/-- carla.Transform: a pose, location plus rotation. -/
structure Transform where
  location : Location
  rotation : Rotation
deriving DecidableEq

/-- carla.Vector3D: used for velocities. -/
structure Vector3D where
  x : ℚ
  y : ℚ
  z : ℚ
deriving DecidableEq

/-- carla.VehicleControl: throttle/steer/brake scalars. -/
structure Control where
  throttle : ℚ
  steer : ℚ
  brake : ℚ
deriving DecidableEq

/-- The road-graph collaborator.  Waypoints are opaque handles, modelled
as natural-number ids; the graph supplies the queries the core uses:
`wp.transform` (pose of a waypoint), `wp.lane_width`, `wp.next(d)`
(successor waypoints reachable ahead within arc-length `d`), and
`map.get_waypoint(loc)` (nearest waypoint to a location). -/
structure RoadGraph where
  wpTransform : ℕ → Transform
  lane_width : ℕ → ℚ
  next : ℕ → ℚ → List ℕ
  get_waypoint : Location → ℕ

instance {ε α : Type} [DecidableEq ε] [DecidableEq α] : DecidableEq (Except ε α)
  | .error a, .error b => decidable_of_iff (a = b) (by simp)
  | .error _, .ok _ => isFalse (by simp)
  | .ok _, .error _ => isFalse (by simp)
  | .ok a, .ok b => decidable_of_iff (a = b) (by simp)

/-- The fixed sampling radius used in `generate_random_starting_pts`
(`radius = 1.8` in the source). -/
def radius : ℚ := 9/5

/-- `generate_random_starting_pts(wp, num)` (source lines 892-914):
checks `if radius < wp.lane_width/2.0: raise ValueError(...)`, then for
each of `num` samples draws three unit randoms and builds a transform
with `x = center.x + radius*(2*random()-1)`,
`y = center.y + radius*(2*random()-1)`, `z = center.z`,
`yaw = 180*(2*random()-1)` (pitch and roll default to 0).
The `i`-th sample consumes stream values `g (3*i)`, `g (3*i+1)`,
`g (3*i+2)`. -/
def generate_random_starting_pts (G : RoadGraph) (g : ℕ → ℚ) (wp : ℕ) (num : ℕ) :
    Except String (List Transform) :=
  if radius < G.lane_width wp / 2 then
    .error "radius < wp.lane_width/2"
  else
    .ok ((List.range num).map (fun i =>
      ⟨⟨(G.wpTransform wp).location.x + radius * (2 * g (3*i) - 1),
        (G.wpTransform wp).location.y + radius * (2 * g (3*i+1) - 1),
        (G.wpTransform wp).location.z⟩,
       ⟨0, 180 * (2 * g (3*i+2) - 1), 0⟩⟩))

/-- A random stream for `random.random()` is valid when every draw lies
in the half-open unit interval. -/
def ValidRand (g : ℕ → ℚ) : Prop := ∀ k, 0 ≤ g k ∧ g k < 1

/-- A demo road graph: a single waypoint 0 at the origin with
lane width 3, looping to itself. -/
def demoG : RoadGraph :=
  ⟨fun _ => ⟨⟨0, 0, 0⟩, ⟨0, 0, 0⟩⟩, fun _ => 3, fun _ _ => [0], fun _ => 0⟩

/-- Demo graph with lane width 3.5 (the CARLA default lane width). -/
def demoG35 : RoadGraph :=
  ⟨fun _ => ⟨⟨0, 0, 0⟩, ⟨0, 0, 0⟩⟩, fun _ => 7/2, fun _ _ => [0], fun _ => 0⟩

/-- Demo graph with lane width 4. -/
def demoG4 : RoadGraph :=
  ⟨fun _ => ⟨⟨0, 0, 0⟩, ⟨0, 0, 0⟩⟩, fun _ => 4, fun _ _ => [0], fun _ => 0⟩

/-- Python `random.choice(l)`: raises IndexError on an empty sequence,
otherwise returns the element at the drawn index; the random index is
modelled as an arbitrary natural `c` taken modulo the length. -/
def randChoice (c : ℕ) : List ℕ → Except String ℕ
  | [] => .error "Cannot choose from an empty sequence"
  | x :: xs => .ok ((x :: xs).getD (c % (xs.length + 1)) x)

/-- The repeated forward-sampling loop of the source, used twice:
the reference-path builder (lines 781-786:
`wps = [org_wp]; for i in range(num_wp): wps.append(random.choice(wps[i].next(sampling_radius)))`)
and the lookahead-window builder (lines 828-832, identical shape with
`horizon` iterations starting from `cur_wp`).  `samplePath G c r w k n`
returns the list `[w, w1, ..., wn]` (length `n+1`), consuming choice
indices `c k, c (k+1), ...`; if some waypoint has no successor within
`r`, the `random.choice` raise propagates as an error. -/
def samplePath (G : RoadGraph) (c : ℕ → ℕ) (r : ℚ) : ℕ → ℕ → ℕ → Except String (List ℕ)
  | w, _, 0 => .ok [w]
  | w, k, n+1 =>
    match randChoice (c k) (G.next w r) with
    | .error e => .error e
    | .ok w2 =>
      match samplePath G c r w2 (k+1) n with
      | .error e => .error e
      | .ok rest => .ok (w :: rest)

theorem randChoice_ok_mem {c : ℕ} {l : List ℕ} {w : ℕ} (h : randChoice c l = .ok w) :
    w ∈ l := by
  cases l with
  | nil => simp [randChoice] at h
  | cons x xs =>
    simp only [randChoice, Except.ok.injEq] at h
    subst h
    have hlt : c % (xs.length + 1) < (x :: xs).length := by
      simp only [List.length_cons]
      exact Nat.mod_lt _ (Nat.succ_pos _)
    rw [List.getD_eq_getElem?_getD, List.getElem?_eq_getElem hlt]
    exact List.getElem_mem hlt

theorem samplePath_ok (G : RoadGraph) (c : ℕ → ℕ) (r : ℚ) :
    ∀ (n k w : ℕ) (l : List ℕ), samplePath G c r w k n = .ok l →
      l.length = n + 1 ∧ (∃ rest, l = w :: rest) ∧
      List.Chain' (fun a b => b ∈ G.next a r) l := by
  intro n
  induction n with
  | zero =>
    intro k w l h
    simp only [samplePath, Except.ok.injEq] at h
    subst h
    exact ⟨rfl, ⟨[], rfl⟩, by simp⟩
  | succ m ih =>
    intro k w l h
    simp only [samplePath] at h
    cases hc : randChoice (c k) (G.next w r) with
    | error e => rw [hc] at h; exact absurd h (by simp)
    | ok w2 =>
      rw [hc] at h
      dsimp only at h
      cases hs : samplePath G c r w2 (k+1) m with
      | error e => rw [hs] at h; exact absurd h (by simp)
      | ok rest =>
        rw [hs] at h
        dsimp only at h
        simp only [Except.ok.injEq] at h
        subst h
        obtain ⟨hlen, ⟨tail, htail⟩, hchain⟩ := ih (k+1) w2 rest hs
        refine ⟨by simp [hlen], ⟨rest, rfl⟩, ?_⟩
        subst htail
        exact List.Chain'.cons (randChoice_ok_mem hc) hchain

theorem samplePath_error_of_no_successor (G : RoadGraph) (c : ℕ → ℕ) (r : ℚ)
    (w k n : ℕ) (hn : G.next w r = []) :
    samplePath G c r w k (n+1) = .error "Cannot choose from an empty sequence" := by
  simp [samplePath, hn, randChoice]

/-- C1: the claim says generation raises exactly when `radius` exceeds half
the lane width.  The code's guard is inverted: it raises exactly when
`radius < lane_width/2`.  At lane width `3.5` (the CARLA default), the
radius `1.8` exceeds half the lane width (`1.75`) yet the code returns the
full batch without raising; at lane width `4`, the radius does not exceed
half the lane width (`2`) yet the code raises. -/
theorem generate_random_starting_pts_guard_inverted :
    (7/2 : ℚ) / 2 < radius ∧
    generate_random_starting_pts demoG35 (fun _ => 1/2) 0 2 =
      .ok [⟨⟨0, 0, 0⟩, ⟨0, 0, 0⟩⟩, ⟨⟨0, 0, 0⟩, ⟨0, 0, 0⟩⟩] ∧
    radius < (4 : ℚ) / 2 ∧
    generate_random_starting_pts demoG4 (fun _ => 1/2) 0 2 =
      .error "radius < wp.lane_width/2" := by
  refine ⟨by norm_num [radius], ?_, by norm_num [radius], ?_⟩ <;>
    norm_num [generate_random_starting_pts, demoG35, demoG4, radius, List.range_succ]

/-- C3 counterexample: with the valid random stream constantly `9/10`,
the single generated point around the origin waypoint lies at
`(36/25, 36/25)`, whose squared planar distance from the reference
waypoint exceeds `radius^2`: the points are sampled in a square of
half-side `radius`, not in a disc of radius `radius`. -/
theorem generate_random_starting_pts_disc_counterexample :
    ValidRand (fun _ => (9/10 : ℚ)) ∧
    generate_random_starting_pts demoG (fun _ => (9/10 : ℚ)) 0 1 =
      .ok [⟨⟨36/25, 36/25, 0⟩, ⟨0, 144, 0⟩⟩] ∧
    ((36/25 : ℚ) - 0)^2 + ((36/25 : ℚ) - 0)^2 > radius^2 := by
  refine ⟨fun k => by norm_num, ?_, by norm_num [radius]⟩
  norm_num [generate_random_starting_pts, demoG, radius, List.range_succ]

/-- C3 (amended): every generated point lies in the axis-aligned square of
half-side `radius` centered on the reference waypoint (each planar
coordinate within `radius` of the waypoint's, hence planar distance at
most `radius * sqrt 2`), at the waypoint's height, and its yaw lies in
`[-180, 180)`. -/
theorem generate_random_starting_pts_square_bound (G : RoadGraph) (g : ℕ → ℚ)
    (wp num : ℕ) (l : List Transform) (hg : ValidRand g)
    (h : generate_random_starting_pts G g wp num = .ok l) :
    ∀ t ∈ l,
      |t.location.x - (G.wpTransform wp).location.x| ≤ radius ∧
      |t.location.y - (G.wpTransform wp).location.y| ≤ radius ∧
      t.location.z = (G.wpTransform wp).location.z ∧
      -180 ≤ t.rotation.yaw ∧ t.rotation.yaw < 180 := by
  intro t ht
  unfold generate_random_starting_pts at h
  by_cases hr : radius < G.lane_width wp / 2
  · rw [if_pos hr] at h
    exact absurd h (by simp)
  · rw [if_neg hr] at h
    simp only [Except.ok.injEq] at h
    subst h
    simp only [List.mem_map, List.mem_range] at ht
    obtain ⟨i, _, rfl⟩ := ht
    have hx := hg (3*i)
    have hy := hg (3*i+1)
    have hyaw := hg (3*i+2)
    have hrad : (0 : ℚ) < radius := by norm_num [radius]
    refine ⟨?_, ?_, rfl, ?_, ?_⟩
    · rw [abs_le]
      constructor <;> · simp only; nlinarith [hx.1, hx.2]
    · rw [abs_le]
      constructor <;> · simp only; nlinarith [hy.1, hy.2]
    · simp only; nlinarith [hyaw.1]
    · simp only; nlinarith [hyaw.2]

/-- C3 witness: applying the square bound at a concrete input (the demo
graph, the constant stream `1/2`, one sample, which generates the point
at the waypoint itself with yaw `0`). -/
theorem generate_random_starting_pts_square_bound_witness :
    |(0 : ℚ) - 0| ≤ radius ∧ |(0 : ℚ) - 0| ≤ radius ∧ (0 : ℚ) = 0 ∧
    -180 ≤ (0 : ℚ) ∧ (0 : ℚ) < 180 := by
  have h := generate_random_starting_pts_square_bound demoG (fun _ => (1/2 : ℚ)) 0 1
    [⟨⟨0, 0, 0⟩, ⟨0, 0, 0⟩⟩] (fun k => by norm_num)
    (by norm_num [generate_random_starting_pts, demoG, radius, List.range_succ])
    ⟨⟨0, 0, 0⟩, ⟨0, 0, 0⟩⟩ (by simp)
  exact h

/-- C4: the reference-path sampler (and the identically shaped lookahead
builder): whenever it succeeds it returns exactly `n+1` waypoints, each
consecutive pair linked by the road graph's `next`-within-`r` query; and
when a waypoint has no successor within `r` it fails with the
`random.choice` error rather than silently returning a short list. -/
theorem reference_path_sampler_spec (G : RoadGraph) (c : ℕ → ℕ) (r : ℚ)
    (w k n : ℕ) :
    (∀ l, samplePath G c r w k n = .ok l →
      l.length = n + 1 ∧ List.Chain' (fun a b => b ∈ G.next a r) l) ∧
    (G.next w r = [] → n ≠ 0 →
      samplePath G c r w k n = .error "Cannot choose from an empty sequence") := by
  constructor
  · intro l h
    obtain ⟨h1, _, h3⟩ := samplePath_ok G c r n k w l h
    exact ⟨h1, h3⟩
  · intro hnil hn
    obtain ⟨m, rfl⟩ := Nat.exists_eq_succ_of_ne_zero hn
    exact samplePath_error_of_no_successor G c r w k m hnil

/-- C4 witness: the sampler on the demo graph with `n = 3` returns the
four-waypoint path `[0, 0, 0, 0]`, of length `3 + 1` and chained by
`next`. -/
theorem reference_path_sampler_spec_witness :
    samplePath demoG (fun _ => 0) 2 0 0 3 = .ok [0, 0, 0, 0] ∧
    ([0, 0, 0, 0] : List ℕ).length = 3 + 1 ∧
    List.Chain' (fun a b => b ∈ demoG.next a 2) [0, 0, 0, 0] := by
  have h : samplePath demoG (fun _ => 0) 2 0 0 3 = .ok [0, 0, 0, 0] := by
    simp [samplePath, randChoice, demoG]
  refine ⟨h, ?_, ?_⟩
  · exact ((reference_path_sampler_spec demoG (fun _ => 0) 2 0 0 3).1 _ h).1
  · exact ((reference_path_sampler_spec demoG (fun _ => 0) 2 0 0 3).1 _ h).2

/-- The lookahead horizon of game_loop (`horizon = 50`, source line 774). -/
def horizon : ℕ := 50

/-- The forward sampling radius of game_loop (`sampling_radius = 2.0`,
source line 780), used both for the reference path and the lookahead
window. -/
def sampling_radius : ℚ := 2

/-- `transform_to_arr(tf)` (source lines 886-887): flattens a pose into
`[x, y, z, pitch, yaw, roll]`. -/
def transform_to_arr (tf : Transform) : List ℚ :=
  [tf.location.x, tf.location.y, tf.location.z,
   tf.rotation.pitch, tf.rotation.yaw, tf.rotation.roll]

/-- The tuple captured by one pre/post iteration of game_loop's inner
while loop: control, pre-state pose and velocity, post-state pose and
velocity, the waypoint nearest the pre-state location (`cur_wp`), and
the lookahead window `future_wps`. -/
structure Captured where
  control : Control
  cur_loc : Transform
  cur_vel : Vector3D
  next_loc : Transform
  next_vel : Vector3D
  cur_wp : ℕ
  future_wps : List ℕ

/-- The pre-state location relative to `cur_wp` (source line 864):
`np.array([cur_loc.location.x, cur_loc.location.y]) - np.array([cur_wp...x, cur_wp...y])`. -/
def rel_pre (G : RoadGraph) (t : Captured) : List ℚ :=
  [t.cur_loc.location.x - (G.wpTransform t.cur_wp).location.x,
   t.cur_loc.location.y - (G.wpTransform t.cur_wp).location.y]

/-- The post-state location relative to the same `cur_wp` (source line
866): `np.array([next_loc...x, next_loc...y]) - np.array([cur_wp...x, cur_wp...y])`. -/
def rel_post (G : RoadGraph) (t : Captured) : List ℚ :=
  [t.next_loc.location.x - (G.wpTransform t.cur_wp).location.x,
   t.next_loc.location.y - (G.wpTransform t.cur_wp).location.y]

/-- `future_wps_np` flattened (source lines 834-838, 865): per lookahead
waypoint the pair of planar coordinates minus `cur_wp`'s, concatenated
in window order. -/
def future_wps_np (G : RoadGraph) (cur_wp : ℕ) (wps : List ℕ) : List ℚ :=
  wps.flatMap (fun w =>
    [(G.wpTransform w).location.x - (G.wpTransform cur_wp).location.x,
     (G.wpTransform w).location.y - (G.wpTransform cur_wp).location.y])

/-- The first 21 fields of a row (source lines 861-863): control (3),
pre-pose (6), pre-velocity (3), post-pose (6), post-velocity (3). -/
def pre21 (t : Captured) : List ℚ :=
  [t.control.throttle, t.control.steer, t.control.brake]
    ++ transform_to_arr t.cur_loc
    ++ [t.cur_vel.x, t.cur_vel.y, t.cur_vel.z]
    ++ transform_to_arr t.next_loc
    ++ [t.next_vel.x, t.next_vel.y, t.next_vel.z]

/-- One dataset row (the `np.hstack` of source lines 861-866): the 21
absolute fields, then `rel_pre` (2), the flattened lookahead
(`2*(horizon+1)` when the window has `horizon+1` waypoints), then
`rel_post` (2). -/
def assembleRow (G : RoadGraph) (t : Captured) : List ℚ :=
  pre21 t ++ rel_pre G t ++ future_wps_np G t.cur_wp t.future_wps ++ rel_post G t

/-- `writer.writerow(row)` on the append-mode csv file (source lines
868-871): the dataset is an append-only list of rows. -/
def recordTransition (G : RoadGraph) (ds : List (List ℚ)) (t : Captured) : List (List ℚ) :=
  ds ++ [assembleRow G t]

/-- One full capture-and-assemble step of the inner loop (source lines
820-866): `cur_wp = map.get_waypoint(cur_loc.location)`; the lookahead
window is built from `cur_wp` by `horizon` random successor choices at
`sampling_radius` (a `random.choice` raise propagates); the row is then
assembled from the captured tuple. -/
def captureStep (G : RoadGraph) (c : ℕ → ℕ) (k : ℕ) (ctl : Control)
    (cur_loc : Transform) (cur_vel : Vector3D)
    (next_loc : Transform) (next_vel : Vector3D) : Except String (List ℚ) :=
  match samplePath G c sampling_radius (G.get_waypoint cur_loc.location) k horizon with
  | .error e => .error e
  | .ok fw =>
    .ok (assembleRow G ⟨ctl, cur_loc, cur_vel, next_loc, next_vel,
      G.get_waypoint cur_loc.location, fw⟩)

namespace E2C

/-- `norm(x, x_max)` (source lines 737-742): `n = x/(x_max*2) + 0.5`;
returns `n` if `0 < n < 1`, otherwise raises `ValueError`.  A zero
`x_max` raises Python's division-by-zero error before `n` exists.
(Namespaced to avoid colliding with Mathlib's `Norm.norm`.) -/
def norm (x x_max : ℚ) : Except String ℚ :=
  if x_max * 2 = 0 then .error "ZeroDivisionError: float division by zero"
  else
    if 0 < x / (x_max * 2) + 1/2 ∧ x / (x_max * 2) + 1/2 < 1 then
      .ok (x / (x_max * 2) + 1/2)
    else
      .error "abnormal norm x, x_max, norm"

end E2C

theorem future_wps_np_length (G : RoadGraph) (cur_wp : ℕ) (wps : List ℕ) :
    (future_wps_np G cur_wp wps).length = 2 * wps.length := by
  induction wps with
  | nil => simp [future_wps_np]
  | cons w ws ih =>
    simp only [future_wps_np, List.flatMap_cons, List.length_append] at ih ⊢
    simp only [List.length_cons, List.length_nil]
    omega

theorem pre21_length (t : Captured) : (pre21 t).length = 21 := rfl

theorem rel_pre_length (G : RoadGraph) (t : Captured) : (rel_pre G t).length = 2 := rfl

theorem captureStep_ok (G : RoadGraph) (c : ℕ → ℕ) (k : ℕ) (ctl : Control)
    (cl : Transform) (cv : Vector3D) (nl : Transform) (nv : Vector3D) (row : List ℚ)
    (h : captureStep G c k ctl cl cv nl nv = .ok row) :
    ∃ fw, samplePath G c sampling_radius (G.get_waypoint cl.location) k horizon = .ok fw ∧
      fw.length = horizon + 1 ∧
      row = assembleRow G ⟨ctl, cl, cv, nl, nv, G.get_waypoint cl.location, fw⟩ := by
  unfold captureStep at h
  cases hs : samplePath G c sampling_radius (G.get_waypoint cl.location) k horizon with
  | error e => rw [hs] at h; exact absurd h (by simp)
  | ok fw =>
    rw [hs] at h
    dsimp only at h
    simp only [Except.ok.injEq] at h
    exact ⟨fw, rfl, (samplePath_ok G c sampling_radius horizon k _ fw hs).1, h.symm⟩

/-- C5: every row assembled by the capture step has the fixed width
`3 + 6 + 3 + 6 + 3 + 2 + 2*(horizon+1) + 2`: in particular the
flattened lookahead always contributes exactly `2*(horizon+1)` entries,
because the window always has `horizon+1` waypoints on success and a
topology exhaustion raises instead of shortening the window. -/
theorem row_width_invariant (G : RoadGraph) (c : ℕ → ℕ) (k : ℕ) (ctl : Control)
    (cl : Transform) (cv : Vector3D) (nl : Transform) (nv : Vector3D) (row : List ℚ)
    (h : captureStep G c k ctl cl cv nl nv = .ok row) :
    row.length = 3 + 6 + 3 + 6 + 3 + 2 + 2 * (horizon + 1) + 2 := by
  obtain ⟨fw, -, hlen, rfl⟩ := captureStep_ok G c k ctl cl cv nl nv row h
  simp only [assembleRow, List.length_append, pre21_length, rel_pre_length,
    future_wps_np_length, hlen]
  norm_num [rel_post]

theorem assembleRow_drop_relpost (G : RoadGraph) (t : Captured)
    (hfw : t.future_wps.length = horizon + 1) :
    (assembleRow G t).drop (3 + 6 + 3 + 6 + 3 + 2 + 2 * (horizon + 1)) = rel_post G t := by
  have h1 : ((pre21 t ++ rel_pre G t) ++ future_wps_np G t.cur_wp t.future_wps).length
      = 3 + 6 + 3 + 6 + 3 + 2 + 2 * (horizon + 1) := by
    simp only [List.length_append, pre21_length, rel_pre_length, future_wps_np_length, hfw]
  exact List.drop_left' h1

theorem assembleRow_drop_relpre (G : RoadGraph) (t : Captured) :
    ((assembleRow G t).drop (3 + 6 + 3 + 6 + 3)).take 2 = rel_pre G t := by
  have hrow : assembleRow G t =
      pre21 t ++ (rel_pre G t ++ (future_wps_np G t.cur_wp t.future_wps ++ rel_post G t)) := by
    simp [assembleRow, List.append_assoc]
  rw [hrow, List.drop_left' (show (pre21 t).length = 3 + 6 + 3 + 6 + 3 from rfl),
    List.take_left' (show (rel_pre G t).length = 2 from rfl)]

/-- C6: in every assembled row, the trailing `rel_post` pair is the
post-state planar location minus the location of `cur_wp`, the waypoint
nearest the PRE-state location — the same waypoint whose location is
subtracted for `rel_pre` (the pair at offset 21) — and not a waypoint
nearest the post-state location. -/
theorem rel_post_uses_pre_waypoint (G : RoadGraph) (c : ℕ → ℕ) (k : ℕ) (ctl : Control)
    (cl : Transform) (cv : Vector3D) (nl : Transform) (nv : Vector3D) (row : List ℚ)
    (h : captureStep G c k ctl cl cv nl nv = .ok row) :
    row.drop (3 + 6 + 3 + 6 + 3 + 2 + 2 * (horizon + 1)) =
      [nl.location.x - (G.wpTransform (G.get_waypoint cl.location)).location.x,
       nl.location.y - (G.wpTransform (G.get_waypoint cl.location)).location.y] ∧
    (row.drop (3 + 6 + 3 + 6 + 3)).take 2 =
      [cl.location.x - (G.wpTransform (G.get_waypoint cl.location)).location.x,
       cl.location.y - (G.wpTransform (G.get_waypoint cl.location)).location.y] := by
  obtain ⟨fw, -, hlen, rfl⟩ := captureStep_ok G c k ctl cl cv nl nv row h
  constructor
  · rw [assembleRow_drop_relpost G _ hlen]
    rfl
  · rw [assembleRow_drop_relpre G _]
    rfl

/-- C10: the first pair of the flattened lookahead window (row offsets 23
and 24) is always `(0, 0)`: the window starts with `cur_wp` itself, whose
waypoint-relative offset is `cur_wp.location - cur_wp.location`. -/
theorem lookahead_first_pair_zero (G : RoadGraph) (c : ℕ → ℕ) (k : ℕ) (ctl : Control)
    (cl : Transform) (cv : Vector3D) (nl : Transform) (nv : Vector3D) (row : List ℚ)
    (h : captureStep G c k ctl cl cv nl nv = .ok row) :
    (row.drop (3 + 6 + 3 + 6 + 3 + 2)).take 2 = [0, 0] := by
  obtain ⟨fw, hs, -, rfl⟩ := captureStep_ok G c k ctl cl cv nl nv row h
  obtain ⟨-, ⟨rest, rfl⟩, -⟩ :=
    samplePath_ok G c sampling_radius horizon k (G.get_waypoint cl.location) fw hs
  have hrow : ∀ t : Captured, assembleRow G t =
      (pre21 t ++ rel_pre G t) ++
        (future_wps_np G t.cur_wp t.future_wps ++ rel_post G t) := by
    intro t
    simp [assembleRow, List.append_assoc]
  rw [hrow, List.drop_left'
    (show (pre21 _ ++ rel_pre G _).length = 3 + 6 + 3 + 6 + 3 + 2 from rfl)]
  simp [future_wps_np, List.flatMap_cons]

def demoControl : Control := ⟨0, 0, 0⟩

def demoPre : Transform := ⟨⟨0, 0, 0⟩, ⟨0, 0, 0⟩⟩

def demoVel : Vector3D := ⟨0, 0, 0⟩

def demoPost : Transform := ⟨⟨1, 2, 3⟩, ⟨0, 0, 0⟩⟩

/-- The row the capture step produces on the demo graph from the
all-zero pre-state and the post-state at `(1, 2, 3)`. -/
def demoRow : List ℚ :=
  assembleRow demoG
    ⟨demoControl, demoPre, demoVel, demoPost, demoVel, 0, List.replicate (horizon+1) 0⟩

theorem samplePath_demoG_replicate (c : ℕ → ℕ) :
    ∀ (n k : ℕ), samplePath demoG c sampling_radius 0 k n = .ok (List.replicate (n+1) 0) := by
  intro n
  induction n with
  | zero => intro k; simp [samplePath, List.replicate]
  | succ m ih =>
    intro k
    have hrc : randChoice (c k) (demoG.next 0 sampling_radius) = .ok 0 := by
      simp [demoG, randChoice]
    simp only [samplePath, hrc, ih (k+1)]
    simp [List.replicate]

theorem captureStep_demo :
    captureStep demoG (fun _ => 0) 0 demoControl demoPre demoVel demoPost demoVel =
      .ok demoRow := by
  unfold captureStep
  have h0 : demoG.get_waypoint demoPre.location = 0 := rfl
  rw [h0, samplePath_demoG_replicate]
  rfl

/-- C5 witness: the demo row has the invariant width. -/
theorem row_width_invariant_witness :
    demoRow.length = 3 + 6 + 3 + 6 + 3 + 2 + 2 * (horizon + 1) + 2 :=
  row_width_invariant demoG (fun _ => 0) 0 demoControl demoPre demoVel demoPost demoVel
    demoRow captureStep_demo

/-- C6 witness: in the demo row, `rel_post` is the post-state location
`(1, 2)` minus the pre-state waypoint's location `(0, 0)`, and `rel_pre`
subtracts the same waypoint location. -/
theorem rel_post_uses_pre_waypoint_witness :
    demoRow.drop (3 + 6 + 3 + 6 + 3 + 2 + 2 * (horizon + 1)) =
      [(1 : ℚ) - 0, (2 : ℚ) - 0] ∧
    (demoRow.drop (3 + 6 + 3 + 6 + 3)).take 2 = [(0 : ℚ) - 0, (0 : ℚ) - 0] :=
  rel_post_uses_pre_waypoint demoG (fun _ => 0) 0 demoControl demoPre demoVel demoPost
    demoVel demoRow captureStep_demo

/-- C10 witness: the first pair of the demo row's lookahead block is
`(0, 0)`. -/
theorem lookahead_first_pair_zero_witness :
    (demoRow.drop (3 + 6 + 3 + 6 + 3 + 2)).take 2 = [0, 0] :=
  lookahead_first_pair_zero demoG (fun _ => 0) 0 demoControl demoPre demoVel demoPost
    demoVel demoRow captureStep_demo

/-- C7: the relative-frame round trip is exact: `rel_pre` is the 2-vector
`pre_location - cur_wp.location`, and adding `cur_wp.location` back
recovers the pre-state planar location exactly (the embedding uses exact
rational arithmetic, so the floating-point tolerance is 0). -/
theorem rel_pre_round_trip (G : RoadGraph) (t : Captured) :
    rel_pre G t =
      [t.cur_loc.location.x - (G.wpTransform t.cur_wp).location.x,
       t.cur_loc.location.y - (G.wpTransform t.cur_wp).location.y] ∧
    (t.cur_loc.location.x - (G.wpTransform t.cur_wp).location.x) +
        (G.wpTransform t.cur_wp).location.x = t.cur_loc.location.x ∧
    (t.cur_loc.location.y - (G.wpTransform t.cur_wp).location.y) +
        (G.wpTransform t.cur_wp).location.y = t.cur_loc.location.y :=
  ⟨rfl, by ring, by ring⟩

/-- C8: `norm` returns `x/(x_max*2) + 1/2` exactly when that value lies
strictly inside the unit interval, and raises the `ValueError` diagnostic
exactly when it does not (for any nonzero `x_max`; a zero `x_max` raises
Python's division-by-zero error instead). -/
theorem norm_spec (x m : ℚ) (hm : m ≠ 0) :
    (0 < x / (m * 2) + 1/2 ∧ x / (m * 2) + 1/2 < 1 →
      E2C.norm x m = .ok (x / (m * 2) + 1/2)) ∧
    (¬(0 < x / (m * 2) + 1/2 ∧ x / (m * 2) + 1/2 < 1) →
      E2C.norm x m = .error "abnormal norm x, x_max, norm") := by
  have h2 : m * 2 ≠ 0 := mul_ne_zero hm two_ne_zero
  constructor
  · intro h
    unfold E2C.norm
    rw [if_neg h2, if_pos h]
  · intro h
    unfold E2C.norm
    rw [if_neg h2, if_neg h]

/-- C8 witness: `norm 1 2` rescales to `3/4`, inside the unit interval,
and is returned. -/
theorem norm_spec_witness : E2C.norm 1 2 = .ok (1 / (2 * 2) + 1/2) :=
  (norm_spec 1 2 (by norm_num)).1 (by norm_num)

/-- C9: the row-assembly-and-append step is a pure function of the
captured tuple: appending the same captured tuple twice appends two
identical rows (and leaves the previously written prefix untouched). -/
theorem recordTransition_deterministic (G : RoadGraph) (ds : List (List ℚ)) (t : Captured) :
    recordTransition G (recordTransition G ds t) t =
      ds ++ [assembleRow G t, assembleRow G t] := by
  simp [recordTransition]

/-- How game_loop's inner episode while-loop (source lines 805-875) can
end: the frame budget is exhausted (normal completion), `parse_events`
reported a quit (source 807-809, `return`), `world.tick` found no ego
vehicle (source 810-812, `return`), or the model's fuel ran out (never
happens with enough fuel; see `episodeLoop_never_out_of_fuel`).
Each constructor carries the number of rows written so far. -/
inductive EpisodeResult where
  | completed : ℕ → EpisodeResult
  | quitHalt : ℕ → EpisodeResult
  | actorLost : ℕ → EpisodeResult
  | outOfFuel : ℕ → EpisodeResult
deriving DecidableEq

/-- The number of dataset rows written when the loop ended. -/
def rowsWritten : EpisodeResult → ℕ
  | .completed n => n
  | .quitHalt n => n
  | .actorLost n => n
  | .outOfFuel n => n

/-- The control skeleton of game_loop's inner while loop (source lines
805-875): `while hud.frame_number - init_frame_number < 400`, then per
iteration a quit check (`controller.parse_events`, 807), an ego-vehicle
check (`world.tick`, 810), then two blocking `wait_for_tick` calls (819
and 845) between which the pre-state and after which the post-state are
captured, then one row appended (868-871).  `elapsed` models
`hud.frame_number - init_frame_number`; `adv j` models how many frames
the `j`-th `wait_for_tick` of the episode advances the frame counter
(at least one per wait).  `fuel` is only the structural-recursion bound.
-/
def episodeLoop (budget : ℕ) (adv : ℕ → ℕ) (quit alive : ℕ → Bool) :
    ℕ → ℕ → ℕ → ℕ → EpisodeResult
  | 0, _, elapsed, rows =>
    if budget ≤ elapsed then .completed rows else .outOfFuel rows
  | fuel+1, i, elapsed, rows =>
    if budget ≤ elapsed then .completed rows
    else if quit i then .quitHalt rows
    else if alive i = false then .actorLost rows
    else episodeLoop budget adv quit alive fuel (i+1)
      (elapsed + adv (2*i) + adv (2*i+1)) (rows+1)

theorem episodeLoop_const_one (quit alive : ℕ → Bool)
    (hq : ∀ i, quit i = false) (ha : ∀ i, alive i = true) :
    ∀ (fuel i elapsed rows : ℕ), 400 ≤ elapsed + 2 * fuel →
      episodeLoop 400 (fun _ => 1) quit alive fuel i elapsed rows =
        .completed (rows + (400 - elapsed + 1) / 2) := by
  intro fuel
  induction fuel with
  | zero =>
    intro i e rows h
    have he : 400 ≤ e := by omega
    simp only [episodeLoop, if_pos he]
    congr 1
    omega
  | succ m ih =>
    intro i e rows h
    by_cases he : 400 ≤ e
    · simp only [episodeLoop, if_pos he]
      congr 1
      omega
    · simp only [episodeLoop, if_neg he, hq i, ha i, Bool.true_eq_false, Bool.false_eq_true,
        if_false]
      rw [ih (i+1) (e + 1 + 1) (rows + 1) (by omega)]
      congr 1
      omega

theorem episodeLoop_rows_le (budget : ℕ) (adv : ℕ → ℕ) (quit alive : ℕ → Bool)
    (hadv : ∀ k, 1 ≤ adv k) :
    ∀ (fuel i elapsed rows : ℕ),
      rowsWritten (episodeLoop budget adv quit alive fuel i elapsed rows) ≤
        rows + (budget - elapsed + 1) / 2 := by
  intro fuel
  induction fuel with
  | zero =>
    intro i e rows
    by_cases he : budget ≤ e <;>
      simp [episodeLoop, he, rowsWritten]
  | succ m ih =>
    intro i e rows
    by_cases he : budget ≤ e
    · simp [episodeLoop, he, rowsWritten]
    · by_cases hq : quit i
      · simp [episodeLoop, he, hq, rowsWritten]
      · by_cases ha : alive i
        · have h1 := hadv (2*i)
          have h2 := hadv (2*i+1)
          have step := ih (i+1) (e + adv (2*i) + adv (2*i+1)) (rows+1)
          simp only [episodeLoop, if_neg he, hq, Bool.false_eq_true, if_false, ha,
            Bool.true_eq_false]
          calc rowsWritten (episodeLoop budget adv quit alive m (i+1)
                (e + adv (2*i) + adv (2*i+1)) (rows+1))
              ≤ (rows+1) + (budget - (e + adv (2*i) + adv (2*i+1)) + 1) / 2 := step
            _ ≤ rows + (budget - e + 1) / 2 := by omega
        · simp [episodeLoop, he, hq, ha, rowsWritten]

theorem episodeLoop_never_out_of_fuel (budget : ℕ) (adv : ℕ → ℕ)
    (quit alive : ℕ → Bool) (hadv : ∀ k, 1 ≤ adv k) :
    ∀ (fuel i elapsed rows : ℕ), budget ≤ elapsed + fuel →
      ∀ n, episodeLoop budget adv quit alive fuel i elapsed rows ≠ .outOfFuel n := by
  intro fuel
  induction fuel with
  | zero =>
    intro i e rows h n
    have he : budget ≤ e := by omega
    simp [episodeLoop, he]
  | succ m ih =>
    intro i e rows h n
    by_cases he : budget ≤ e
    · simp [episodeLoop, he]
    · by_cases hq : quit i
      · simp [episodeLoop, he, hq]
      · by_cases ha : alive i
        · simp only [episodeLoop, if_neg he, hq, Bool.false_eq_true, if_false, ha,
            Bool.true_eq_false]
          have h1 := hadv (2*i)
          have h2 := hadv (2*i+1)
          exact ih (i+1) (e + adv (2*i) + adv (2*i+1)) (rows+1) (by omega) n
        · simp [episodeLoop, he, hq, ha]

/-- C2 counterexample: with the 400-frame budget of the source
(`while hud.frame_number - init_frame_number < 400`), no quit, the actor
always present, and every `wait_for_tick` advancing the frame counter by
exactly one, the completed episode writes 200 rows — not 400 — because
each loop iteration performs two `wait_for_tick` calls and so consumes
two frames of the budget per appended row. -/
theorem episode_row_count_counterexample :
    episodeLoop 400 (fun _ => 1) (fun _ => false) (fun _ => true) 400 0 0 0 =
      .completed 200 ∧ (200 : ℕ) ≠ 400 := by
  constructor
  · have h := episodeLoop_const_one (fun _ => false) (fun _ => true)
      (fun _ => rfl) (fun _ => rfl) 400 0 0 0 (by omega)
    simpa using h
  · decide

/-- C2 (amended): an uninterrupted episode under the 400-frame budget
writes exactly 200 rows when each tick wait advances the frame counter by
one (two waits per iteration); in general — interruptions by quit or
actor loss included, and frames advancing by at least one per wait — the
row count is at most 200 (hence at most 400), and the loop always
terminates by completion, quit, or actor loss, never by running out of
iterations. -/
theorem episode_row_count :
    (∀ (quit alive : ℕ → Bool), (∀ i, quit i = false) → (∀ i, alive i = true) →
      episodeLoop 400 (fun _ => 1) quit alive 400 0 0 0 = .completed 200) ∧
    (∀ (adv : ℕ → ℕ) (quit alive : ℕ → Bool), (∀ k, 1 ≤ adv k) →
      rowsWritten (episodeLoop 400 adv quit alive 400 0 0 0) ≤ 200 ∧
      ∀ n, episodeLoop 400 adv quit alive 400 0 0 0 ≠ .outOfFuel n) := by
  constructor
  · intro quit alive hq ha
    have h := episodeLoop_const_one quit alive hq ha 400 0 0 0 (by omega)
    simpa using h
  · intro adv quit alive hadv
    constructor
    · have h := episodeLoop_rows_le 400 adv quit alive hadv 400 0 0 0
      simpa using h
    · exact episodeLoop_never_out_of_fuel 400 adv quit alive hadv 400 0 0 0 (by omega)

/-- C2 witness: the amended theorem applied at concrete streams — no
quit, actor always present, one frame per wait (exactly 200 rows), and
two frames per wait (at most 200 rows). -/
theorem episode_row_count_witness :
    episodeLoop 400 (fun _ => 1) (fun _ => false) (fun _ => true) 400 0 0 0 =
      .completed 200 ∧
    rowsWritten (episodeLoop 400 (fun _ => 2) (fun _ => false) (fun _ => true) 400 0 0 0) ≤
      200 :=
  ⟨episode_row_count.1 (fun _ => false) (fun _ => true) (fun _ => rfl) (fun _ => rfl),
   (episode_row_count.2 (fun _ => 2) (fun _ => false) (fun _ => true)
      (fun _ => one_le_two)).1⟩
